import Mathlib

/-!
Verification of the JSON-RPC-over-HTTP exchange client shared by the
examples in this repository (`examples/basic-typescript/index.ts` and the
Next.js API routes).  The TypeScript functions are shallowly embedded as
Lean functions; `fetch` is the mocked boundary, so each embedded operation
takes the HTTP response the server would give as an explicit argument, and
the platform builtin `JSON.parse` is an explicit function parameter
`parse : String → Option Json` (returning `none` models a thrown parse
error).
-/

set_option autoImplicit false

/-- JSON values, as produced by `JSON.parse` and consumed by
`JSON.stringify`.  Numbers are modelled as integers (every numeric literal
appearing in this repository's envelopes is integral). -/
inductive Json where
  | null
  | bool (b : Bool)
  | num (n : Int)
  | str (s : String)
  | arr (elems : List Json)
  | obj (members : List (String × Json))

/-- JavaScript truthiness of a defined value: `null`, `false`, `0` and `""`
are falsy; every object and array is truthy. -/
def jsTruthy : Json → Bool
  | Json.null => false
  | Json.bool b => b
  | Json.num n => n != 0
  | Json.str s => s != ""
  | Json.arr _ => true
  | Json.obj _ => true

/-- Truthiness of a possibly-`undefined` value (`none` is `undefined`). -/
def jsTruthyOpt : Option Json → Bool
  | none => false
  | some j => jsTruthy j

/-- First-match lookup of a key among the members of an object literal
(JavaScript object literals have unique keys). -/
def lookupField : List (String × Json) → String → Option Json
  | [], _ => none
  | (k', v) :: t, k => if k' = k then some v else lookupField t k

/-- Property read `j.k` on a value that is neither `null` nor `undefined`:
a missing key, or a non-object receiver, yields `undefined` (`none`). -/
def jsGet : Json → String → Option Json
  | Json.obj ms, k => lookupField ms k
  | _, _ => none

/-- Property read `v.k` on a possibly-`undefined`/`null` receiver: reading a
property of `undefined` or `null` throws a `TypeError`, modelled as
`Except.error ()`. -/
def jsRead (v : Option Json) (k : String) : Except Unit (Option Json) :=
  match v with
  | none => Except.error ()
  | some Json.null => Except.error ()
  | some j => Except.ok (jsGet j k)

/-- Optional chaining `v?.k`: `undefined`/`null` receivers short-circuit to
`undefined` instead of throwing. -/
def jsChain (v : Option Json) (k : String) : Option Json :=
  match v with
  | none => none
  | some Json.null => none
  | some j => jsGet j k

/-- The JavaScript `||` operator on a possibly-`undefined` left operand:
returns the left value when truthy, otherwise the default. -/
def jsOrJ (v : Option Json) (d : Json) : Json :=
  match v with
  | none => d
  | some j => if jsTruthy j then j else d

mutual

/-- String coercion of a defined JavaScript value, as performed by template
literal interpolation: objects render as `[object Object]`, arrays as their
comma-joined elements. -/
def jsDisplay : Json → String
  | Json.null => "null"
  | Json.bool true => "true"
  | Json.bool false => "false"
  | Json.num n => toString n
  | Json.str s => s
  | Json.obj _ => "[object Object]"
  | Json.arr xs => jsDisplayElems xs

/-- `Array.prototype.toString`: elements joined with `,`, with `null`
elements rendered as the empty string. -/
def jsDisplayElems : List Json → String
  | [] => ""
  | [Json.null] => ""
  | [x] => jsDisplay x
  | Json.null :: xs => "," ++ jsDisplayElems xs
  | x :: xs => jsDisplay x ++ "," ++ jsDisplayElems xs

end

/-- String coercion of a possibly-`undefined` value (template literals
render `undefined` as the string `undefined`). -/
def jsDisplayOpt : Option Json → String
  | none => "undefined"
  | some j => jsDisplay j

/-- `hay.includes(needle)` on strings, as lists of characters. -/
def listSubstr (needle : List Char) : List Char → Bool
  | [] => needle.isEmpty
  | c :: t => needle.isPrefixOf (c :: t) || listSubstr needle t

/-- The HTTP response handed back by the mocked `fetch`: status, status
text, the `content-type` header (`none` when absent) and the full body. -/
structure HttpResponse where
  status : Nat
  statusText : String
  contentType : Option String
  body : String

/-- `response.ok`: status in the inclusive range 200–299. -/
def isOk2xx (status : Nat) : Bool :=
  200 ≤ status && status ≤ 299

/-- `contentType?.includes("text/event-stream")` coerced to a boolean: an
absent header is `null`, whose optional chain is `undefined`, which is
falsy. -/
def hasEventStream : Option String → Bool
  | none => false
  | some ct => listSubstr "text/event-stream".data ct.data

/-- One attempt of the regex `/data: (.+)/` at the current position: the
literal `data: ` must match here and be followed by at least one
non-newline character; the capture is the maximal run of non-newline
characters (`.` does not match `\n`, `+` is greedy). -/
def matchDataAt (cs : List Char) : Option (List Char) :=
  match cs with
  | 'd' :: 'a' :: 't' :: 'a' :: ':' :: ' ' :: rest =>
    let cap := rest.takeWhile (fun c => c != '\n')
    if cap.isEmpty then none else some cap
  | _ => none

/-- `text.match(/data: (.+)/)`: scan left to right, return the capture of
the first position where the pattern matches. -/
def sseFirstData : List Char → Option (List Char)
  | [] => none
  | c :: t =>
    match matchDataAt (c :: t) with
    | some cap => some cap
    | none => sseFirstData t

/-- Result of one `makeRequest` exchange (the promise either resolves with
the decoded envelope, resolves with `undefined`, or rejects). -/
inductive FetchOutcome where
  | ok (envelope : Json)
  | undefinedResult
  | throwHttp (status : Nat) (statusText : String)
  | throwParse

/-- Response half of `makeRequest` (`index.ts` lines 47–63, duplicated in
both Next.js API routes): throw on a non-2xx status before touching the
body; if the `content-type` contains `text/event-stream`, extract the first
`data: ` payload and parse it, silently resolving with `undefined` when no
such line exists; otherwise parse the whole body as JSON. -/
def makeRequest (parse : String → Option Json) (resp : HttpResponse) : FetchOutcome :=
  if isOk2xx resp.status = false then
    FetchOutcome.throwHttp resp.status resp.statusText
  else if hasEventStream resp.contentType then
    match sseFirstData resp.body.data with
    | some payload =>
      match parse (String.mk payload) with
      | some j => FetchOutcome.ok j
      | none => FetchOutcome.throwParse
    | none => FetchOutcome.undefinedResult
  else
    match parse resp.body with
    | some j => FetchOutcome.ok j
    | none => FetchOutcome.throwParse

/-- Request half of `makeRequest` (`index.ts` lines 28–33): the envelope
`{jsonrpc: "2.0", method, id, ...(params && { params })}` — the spread of
a falsy value contributes nothing, so the `params` key exists exactly when
the argument is supplied and truthy. -/
def buildRequest (method : String) (params : Option Json) (rid : Int) : Json :=
  Json.obj
    ([("jsonrpc", Json.str "2.0"), ("method", Json.str method), ("id", Json.num rid)] ++
      (match params with
       | some p => if jsTruthy p then [("params", p)] else []
       | none => []))

/-- Outcome of one caller-level operation: the promise resolves with a
value (possibly `undefined`), or rejects with the HTTP error, the JSON
parse error, the protocol error thrown on a truthy `error` field, or a
`TypeError` raised while reading a property of `undefined`/`null`. -/
inductive OpResult where
  | ok (v : Option Json)
  | protocolErr (msg : String)
  | typeErr
  | httpErr (status : Nat) (statusText : String)
  | parseErr

/-- Thread a `makeRequest` outcome into an operation's response-processing
code: errors thrown inside `makeRequest` propagate through the operation's
`catch`-and-rethrow blocks unchanged. -/
def runOp (proc : Option Json → OpResult) (parse : String → Option Json)
    (resp : HttpResponse) : OpResult :=
  match makeRequest parse resp with
  | FetchOutcome.ok j => proc (some j)
  | FetchOutcome.undefinedResult => proc none
  | FetchOutcome.throwHttp s t => OpResult.httpErr s t
  | FetchOutcome.throwParse => OpResult.parseErr

/-- Body of `executeTool` after the exchange (`index.ts` lines 152–157):
`if (response.error) throw new Error(`Tool execution failed: ...`)`, then
`return response.result` — the whole `result` field, which is `undefined`
when absent. -/
def executeToolProcess (response : Option Json) : OpResult :=
  match jsRead response "error" with
  | Except.error _ => OpResult.typeErr
  | Except.ok ef =>
    if jsTruthyOpt ef then
      match jsRead ef "message" with
      | Except.error _ => OpResult.typeErr
      | Except.ok mf => OpResult.protocolErr ("Tool execution failed: " ++ jsDisplayOpt mf)
    else
      match jsRead response "result" with
      | Except.error _ => OpResult.typeErr
      | Except.ok rf => OpResult.ok rf

/-- `AlloyMCPClient.executeTool` (`index.ts` lines 143–162): sends
`tools/call` with params `{name: toolName, arguments: args}` and processes
the decoded response; returns the envelope it sent together with the
outcome. -/
def executeTool (parse : String → Option Json) (rid : Int) (resp : HttpResponse)
    (toolName : String) (args : Json) : Json × OpResult :=
  (buildRequest "tools/call"
      (some (Json.obj [("name", Json.str toolName), ("arguments", args)])) rid,
    runOp executeToolProcess parse resp)

/-- Body of the Next.js tool-execution route after the exchange
(`app/api/mcp/execute` handler, lines 63–69): throw on a truthy `error`,
otherwise respond with `response.result?.content || []`. -/
def toolRouteProcess (response : Option Json) : OpResult :=
  match jsRead response "error" with
  | Except.error _ => OpResult.typeErr
  | Except.ok ef =>
    if jsTruthyOpt ef then
      match jsRead ef "message" with
      | Except.error _ => OpResult.typeErr
      | Except.ok mf => OpResult.protocolErr ("Tool execution failed: " ++ jsDisplayOpt mf)
    else
      match jsRead response "result" with
      | Except.error _ => OpResult.typeErr
      | Except.ok rf => OpResult.ok (some (jsOrJ (jsChain rf "content") (Json.arr [])))

/-- The Next.js tool-execution `POST` handler's exchange (lines 58–69):
sends `tools/call` with params `{name: toolName, arguments: toolArgs || {}}`
and unwraps `result?.content || []`. -/
def toolCallPOST (parse : String → Option Json) (rid : Int) (resp : HttpResponse)
    (toolName : String) (toolArgs : Option Json) : Json × OpResult :=
  (buildRequest "tools/call"
      (some (Json.obj [("name", Json.str toolName),
                       ("arguments", jsOrJ toolArgs (Json.obj []))])) rid,
    runOp toolRouteProcess parse resp)

/-- Client instance state: the configured endpoint and the monotonically
incrementing request-id counter (`requestId` starts at 1). -/
structure ClientState where
  serverUrl : String
  requestId : Int
deriving DecidableEq

/-- The JavaScript `||` with a string default, as in
`process.env.NEXT_PUBLIC_MCP_SERVER_URL || ""` (the only falsy string is
the empty one). -/
def jsOrStr (v : Option String) (d : String) : String :=
  match v with
  | none => d
  | some s => if s = "" then d else s

/-- `AlloyMCPClient` constructor (`index.ts` lines 18–25): read the
endpoint from the environment, defaulting to the empty string, and throw
when it is falsy.  The constructor is pure: it takes no network input and
performs no exchange. -/
def mkAlloyMCPClient (envUrl : Option String) : Except String ClientState :=
  let serverUrl := jsOrStr envUrl ""
  if serverUrl = "" then
    Except.error "NEXT_PUBLIC_MCP_SERVER_URL environment variable is required"
  else
    Except.ok { serverUrl := serverUrl, requestId := 1 }

/-- One call through the counter-variant client: the envelope is built with
the current `requestId` and the counter is post-incremented
(`id: this.requestId++`). -/
def stepRequest (st : ClientState) (method : String) (params : Option Json) :
    Json × ClientState :=
  (buildRequest method params st.requestId,
    { st with requestId := st.requestId + 1 })

/-- The id carried by the `n`-th call (0-based) issued through a
counter-variant client starting in state `st`. -/
def nthRequestId (st : ClientState) : Nat → Int
  | 0 => st.requestId
  | n + 1 => nthRequestId (stepRequest st "tools/list" none).2 n

/-- The id of the `n`-th call in the random-variant clients
(`Math.floor(Math.random() * 1000000)`): `draws n` is the value returned by
the `n`-th `Math.random()` invocation (a number in `[0, 1)`, modelled as a
rational since every IEEE double is rational). -/
def randomCallId (draws : Nat → ℚ) (n : Nat) : Int :=
  Int.floor (draws n * 1000000)

/-- The one-element tool output used by the spec's `tools/call` example. -/
def contentItem : Json :=
  Json.obj [("type", Json.str "text"), ("text", Json.str "hello")]

/-- A 2xx `tools/call` envelope `{"result":{"content":[contentItem]}}`. -/
def toolEnvelope : Json :=
  Json.obj [("jsonrpc", Json.str "2.0"), ("id", Json.num 1),
    ("result", Json.obj [("content", Json.arr [contentItem])])]

/-- A parser mapping the body `tool-body` to `toolEnvelope`. -/
def parseTool : String → Option Json :=
  fun t => if t = "tool-body" then some toolEnvelope else none

/-- A 2xx plain-JSON response whose body decodes to `toolEnvelope`. -/
def toolResp : HttpResponse :=
  ⟨200, "OK", some "application/json", "tool-body"⟩

theorem jsRead_of_ne_null {j : Json} (h : j ≠ Json.null) (k : String) :
    jsRead (some j) k = Except.ok (jsGet j k) := by
  cases j <;> simp_all [jsRead]

theorem string_mk_data (s : String) : String.mk s.data = s := rfl

theorem nthRequestId_eq (st : ClientState) (n : Nat) :
    nthRequestId st n = st.requestId + n := by
  induction n generalizing st with
  | zero => simp [nthRequestId]
  | succ m ih =>
    rw [nthRequestId, ih]
    simp [stepRequest]
    ring

/-- C1: for every JSON-RPC response envelope, a 2xx `text/event-stream`
response whose first SSE `data:` payload is the envelope's serialization
decodes to the same outcome as a 2xx plain-JSON response whose body is
that serialization. -/
theorem c1_dual_mode_equivalence (parse : String → Option Json)
    (status : Nat) (stText ctSse ctJson body s : String)
    (hok : isOk2xx status = true)
    (hsse : hasEventStream (some ctSse) = true)
    (hjson : hasEventStream (some ctJson) = false)
    (hdata : sseFirstData body.data = some s.data) :
    makeRequest parse ⟨status, stText, some ctSse, body⟩ =
      makeRequest parse ⟨status, stText, some ctJson, s⟩ := by
  unfold makeRequest
  simp [hok, hsse, hjson, hdata, string_mk_data]

/-- C1 witness: the spec's mocked SSE body
`event: message\ndata: {"jsonrpc":"2.0","id":1,"result":{"ok":true}}\n\n`
decodes identically to the plain-JSON body holding the same envelope. -/
theorem c1_witness :
    makeRequest
        (fun t => if t = "\x7b\"jsonrpc\":\"2.0\",\"id\":1,\"result\":\x7b\"ok\":true\x7d\x7d"
          then some (Json.obj [("jsonrpc", Json.str "2.0"), ("id", Json.num 1),
            ("result", Json.obj [("ok", Json.bool true)])]) else none)
        ⟨200, "OK", some "text/event-stream",
          "event: message\ndata: \x7b\"jsonrpc\":\"2.0\",\"id\":1,\"result\":\x7b\"ok\":true\x7d\x7d\n\n"⟩ =
      makeRequest
        (fun t => if t = "\x7b\"jsonrpc\":\"2.0\",\"id\":1,\"result\":\x7b\"ok\":true\x7d\x7d"
          then some (Json.obj [("jsonrpc", Json.str "2.0"), ("id", Json.num 1),
            ("result", Json.obj [("ok", Json.bool true)])]) else none)
        ⟨200, "OK", some "application/json",
          "\x7b\"jsonrpc\":\"2.0\",\"id\":1,\"result\":\x7b\"ok\":true\x7d\x7d"⟩ :=
  c1_dual_mode_equivalence _ 200 "OK" "text/event-stream" "application/json"
    "event: message\ndata: \x7b\"jsonrpc\":\"2.0\",\"id\":1,\"result\":\x7b\"ok\":true\x7d\x7d\n\n"
    "\x7b\"jsonrpc\":\"2.0\",\"id\":1,\"result\":\x7b\"ok\":true\x7d\x7d"
    (by decide) (by decide) (by decide) (by decide)

/-- C2: every non-2xx response makes the exchange throw an error carrying
the numeric status and status text; the outcome is the same for every body
and every parser, so the body is never parsed. -/
theorem c2_non2xx_short_circuit (parse parse2 : String → Option Json)
    (status : Nat) (stText : String) (ct : Option String) (body body2 : String)
    (h : isOk2xx status = false) :
    makeRequest parse ⟨status, stText, ct, body⟩ =
        FetchOutcome.throwHttp status stText ∧
      makeRequest parse2 ⟨status, stText, ct, body2⟩ =
        FetchOutcome.throwHttp status stText := by
  unfold makeRequest
  simp [h]

/-- C2 witness: a 404 with any body short-circuits to the HTTP error. -/
theorem c2_witness :
    isOk2xx 404 = false ∧
      makeRequest (fun _ => some Json.null)
          ⟨404, "Not Found", some "application/json", "irrelevant"⟩ =
        FetchOutcome.throwHttp 404 "Not Found" :=
  ⟨by decide,
    (c2_non2xx_short_circuit (fun _ => some Json.null) (fun _ => some Json.null)
      404 "Not Found" (some "application/json") "irrelevant" "other" (by decide)).1⟩

/-- C5: when `params` is absent the request envelope carries no `params`
key at all; when it is a structured value (object or array) it appears in
the envelope verbatim.  (`JSON.stringify` serializes exactly the envelope's
keys, so the serialized body has no `params` key either.) -/
theorem c5_params_omitted_or_verbatim (method : String) (rid : Int) :
    jsGet (buildRequest method none rid) "params" = none ∧
      (∀ ms, jsGet (buildRequest method (some (Json.obj ms)) rid) "params" =
        some (Json.obj ms)) ∧
      (∀ xs, jsGet (buildRequest method (some (Json.arr xs)) rid) "params" =
        some (Json.arr xs)) :=
  ⟨rfl, fun _ => rfl, fun _ => rfl⟩

/-- C6 counterexample: against the envelope
`{"result":{"content":[c]}}`, the basic client's `executeTool` returns the
whole `result` object `{"content":[c]}`, not the one-element sequence
`[c]`. -/
theorem c6_counterexample :
    (executeTool parseTool 1 toolResp "list_connectors_alloy" (Json.obj [])).2 =
        OpResult.ok (some (Json.obj [("content", Json.arr [contentItem])])) ∧
      (executeTool parseTool 1 toolResp "list_connectors_alloy" (Json.obj [])).2 ≠
        OpResult.ok (some (Json.arr [contentItem])) := by
  refine ⟨rfl, fun h => ?_⟩
  have hc : OpResult.ok (some (Json.obj [("content", Json.arr [contentItem])])) =
      OpResult.ok (some (Json.arr [contentItem])) :=
    Eq.trans
      (rfl :
        OpResult.ok (some (Json.obj [("content", Json.arr [contentItem])])) =
          (executeTool parseTool 1 toolResp "list_connectors_alloy" (Json.obj [])).2)
      h
  injection hc with h1
  injection h1 with h2
  exact Json.noConfusion h2

/-- C6 (amended): both `tools/call` implementations send params
`{name, arguments}` (the route defaulting absent arguments to `{}`); the
Next.js route returns `result?.content` defaulting to the empty sequence,
but the basic client's `executeTool` returns the whole `result` object. -/
theorem c6_tool_call_behavior (parse : String → Option Json) (rid : Int)
    (resp : HttpResponse) (name : String) (args : Json) (targs : Option Json)
    (j : Json)
    (hj : makeRequest parse resp = FetchOutcome.ok j)
    (hjn : j ≠ Json.null)
    (hne : jsTruthyOpt (jsGet j "error") = false) :
    jsGet (executeTool parse rid resp name args).1 "params" =
        some (Json.obj [("name", Json.str name), ("arguments", args)]) ∧
      jsGet (toolCallPOST parse rid resp name targs).1 "params" =
        some (Json.obj [("name", Json.str name),
          ("arguments", jsOrJ targs (Json.obj []))]) ∧
      (executeTool parse rid resp name args).2 = OpResult.ok (jsGet j "result") ∧
      (∀ xs, jsChain (jsGet j "result") "content" = some (Json.arr xs) →
        (toolCallPOST parse rid resp name targs).2 =
          OpResult.ok (some (Json.arr xs))) ∧
      (jsChain (jsGet j "result") "content" = none →
        (toolCallPOST parse rid resp name targs).2 =
          OpResult.ok (some (Json.arr []))) := by
  refine ⟨rfl, rfl, ?_, ?_, ?_⟩
  · simp [executeTool, runOp, hj, executeToolProcess, jsRead_of_ne_null hjn, hne]
  · intro xs hx
    simp [toolCallPOST, runOp, hj, toolRouteProcess, jsRead_of_ne_null hjn, hne,
      hx, jsOrJ, jsTruthy]
  · intro hx
    simp [toolCallPOST, runOp, hj, toolRouteProcess, jsRead_of_ne_null hjn, hne,
      hx, jsOrJ]

/-- C6 witness: at the spec's mocked `tools/call` response, the basic
client returns the whole `result` and the route returns the one-element
`content` sequence. -/
theorem c6_witness :
    (executeTool parseTool 3 toolResp "list_connectors_alloy" (Json.obj [])).2 =
        OpResult.ok (jsGet toolEnvelope "result") ∧
      (toolCallPOST parseTool 3 toolResp "list_connectors_alloy" none).2 =
        OpResult.ok (some (Json.arr [contentItem])) := by
  have h := c6_tool_call_behavior parseTool 3 toolResp "list_connectors_alloy"
    (Json.obj []) none toolEnvelope (by rfl)
    (fun hx => Json.noConfusion hx) (by rfl)
  exact ⟨h.2.2.1, h.2.2.2.1 [contentItem] (by rfl)⟩

/-- C7: constructing the client with a missing or empty endpoint fails with
the configuration error before any exchange (the constructor takes no
network input at all); a non-empty endpoint yields a client holding that
endpoint and the initial request id, again without network activity. -/
theorem c7_constructor_validation (envUrl : Option String) :
    ((envUrl = none ∨ envUrl = some "") →
      mkAlloyMCPClient envUrl =
        Except.error "NEXT_PUBLIC_MCP_SERVER_URL environment variable is required") ∧
      (∀ s, envUrl = some s → s ≠ "" →
        mkAlloyMCPClient envUrl = Except.ok { serverUrl := s, requestId := 1 }) := by
  constructor
  · rintro (rfl | rfl) <;> rfl
  · rintro s rfl hs
    simp [mkAlloyMCPClient, jsOrStr, hs]

/-- C7 witness: the empty endpoint is rejected, a concrete URL accepted. -/
theorem c7_witness :
    mkAlloyMCPClient (some "") =
        Except.error "NEXT_PUBLIC_MCP_SERVER_URL environment variable is required" ∧
      mkAlloyMCPClient (some "https://mcp.runalloy.com/mcp/srv/token") =
        Except.ok
          { serverUrl := "https://mcp.runalloy.com/mcp/srv/token", requestId := 1 } :=
  ⟨(c7_constructor_validation (some "")).1 (Or.inr rfl),
    (c7_constructor_validation (some "https://mcp.runalloy.com/mcp/srv/token")).2
      "https://mcp.runalloy.com/mcp/srv/token" rfl (by decide)⟩

/-- C9 counterexample: in the random-id variant, the possible
`Math.random()` draw sequence returning 0 twice gives two distinct calls
the same request id, so pairwise distinctness does not hold for the
random-integer variant. -/
theorem c9_counterexample :
    (0 : Nat) ≠ 1 ∧
      randomCallId (fun _ => (0 : ℚ)) 0 = randomCallId (fun _ => (0 : ℚ)) 1 :=
  ⟨by decide, rfl⟩

/-- C9 (amended): the counter variant's ids are pairwise distinct within a
session; the random variant's ids are independent draws from
`[0, 1000000)` and can collide, so its distinctness is not guaranteed. -/
theorem c9_counter_ids_distinct (st : ClientState) (i j : Nat) (h : i ≠ j) :
    nthRequestId st i ≠ nthRequestId st j ∧
      ∃ draws : Nat → ℚ, ∃ k l : Nat, k ≠ l ∧
        randomCallId draws k = randomCallId draws l := by
  constructor
  · rw [nthRequestId_eq, nthRequestId_eq]
    intro hx
    apply h
    omega
  · exact ⟨fun _ => 0, 0, 1, by decide, rfl⟩

/-- C9 witness: the first two calls of a fresh counter-variant client carry
different ids. -/
theorem c9_witness :
    nthRequestId { serverUrl := "https://mcp.example", requestId := 1 } 0 ≠
      nthRequestId { serverUrl := "https://mcp.example", requestId := 1 } 1 :=
  (c9_counter_ids_distinct { serverUrl := "https://mcp.example", requestId := 1 }
    0 1 (by decide)).1

/-- C10: every falsy `params` value — `null`, `0`, the empty string or
`false` — is spread away exactly like an absent one, so the request
envelope carries no `params` key for any of them. -/
theorem c10_falsy_params_omitted (method : String) (rid : Int) :
    jsGet (buildRequest method (some Json.null) rid) "params" = none ∧
      jsGet (buildRequest method (some (Json.num 0)) rid) "params" = none ∧
      jsGet (buildRequest method (some (Json.str "")) rid) "params" = none ∧
      jsGet (buildRequest method (some (Json.bool false)) rid) "params" = none :=
  ⟨rfl, rfl, rfl, rfl⟩
